import Mathlib

/-!
Verification of the PDF text-extraction utilities in this repository.

The repository holds two command-line variants of one pipeline:

* `src/pdf-parser.py` — `extract_text_from_pdf` / `main`: extracts the text
  of every page, keeps only pages whose text is non-empty after stripping
  whitespace, prefixes each kept page with a marker of the shape
  `"\n=== Page N ===\n\n"`, appends a trailing newline per page, writes the
  concatenation to the output path and reports a JSON result dict.
* `src/scripts/pdf_parser.py` — `parse_pdf` / `main`: extracts every page
  unconditionally into a block `"--- Page N ---\n<text>\n"`, joins the
  blocks with `"\n"`, and writes the result, reporting progress as plain
  console messages.

The embedding below models a PDF document by the list of per-page extracted
texts (what `page.get_textpage().get_text_range()` returns page by page),
together with the metadata mapping returned by `pdf.get_metadata_dict()`.
Fallible steps (document opening, per-page text extraction) are modelled
with `Except String`, the error value standing for the raised exception's
message.  Resource acquisition and release, file writes, and page visits
are recorded in an event trace so that ordering and release claims can be
stated.
-/

namespace PdfExtract

/-- Events observable during one extraction call: handle acquisition and
release of the document and of individual pages, completion of a page's
text extraction, creation of the output directory, and the write of the
output file with its exact content. -/
inductive Event where
  | openDoc : Event
  | closeDoc : Event
  | openPage : Nat → Event
  | extractPage : Nat → Event
  | closePage : Nat → Event
  | makeDir : String → Event
  | writeFile : String → String → Event
deriving DecidableEq, Repr

/-- The result dict of `extract_text_from_pdf` in `src/pdf-parser.py`:
on success `{'success': True, 'pages': …, 'text_length': …,
'output_path': …, 'metadata': …}`, on failure `{'success': False,
'error': …, 'traceback': …}` (the traceback is not modelled beyond the
error string). -/
inductive ExtractionResult where
  | ok : Nat → Nat → String → List (String × String) → ExtractionResult
  | err : String → ExtractionResult
deriving DecidableEq, Repr

/-- `result['success']`. -/
def ExtractionResult.success : ExtractionResult → Bool
  | .ok _ _ _ _ => true
  | .err _ => false

/-- `result['pages']` on the success shape. -/
def ExtractionResult.pages : ExtractionResult → Option Nat
  | .ok n _ _ _ => some n
  | .err _ => none

/-- `result['text_length']` on the success shape. -/
def ExtractionResult.textLength : ExtractionResult → Option Nat
  | .ok _ l _ _ => some l
  | .err _ => none

/-- `result['metadata']` on the success shape. -/
def ExtractionResult.metadata : ExtractionResult → Option (List (String × String))
  | .ok _ _ _ m => some m
  | .err _ => none

/-- Python truthiness of `text.strip()`: `strip` removes leading and
trailing whitespace, so the stripped string is non-empty exactly when some
character of the text is not whitespace. -/
def stripNonEmpty (text : String) : Bool :=
  text.data.any (fun c => !c.isWhitespace)

/-- Python `s.lower()`. -/
def pyLower (s : String) : String :=
  ⟨s.data.map Char.toLower⟩

/-- Python `s.endswith(t)`. -/
def pyEndsWith (s t : String) : Bool :=
  List.isSuffixOf t.data s.data

/-- `src/pdf-parser.py` lines 45-48: the contribution of page index `i`
(zero-based) to `extracted_text` — a marker, the text and a newline when
the stripped text is non-empty, nothing otherwise. -/
def pageBlock1 (i : Nat) (text : String) : String :=
  if stripNonEmpty text then
    "\n=== Page " ++ toString (i + 1) ++ " ===\n\n" ++ text ++ "\n"
  else
    ""

/-- The `extracted_text` accumulation loop of `src/pdf-parser.py`
(lines 39-51), starting from page index `i`. -/
def extractedText1From (i : Nat) : List String → String
  | [] => ""
  | t :: rest => pageBlock1 i t ++ extractedText1From (i + 1) rest

/-- The full `extracted_text` of `src/pdf-parser.py` for a document whose
pages carry the given texts. -/
def extractedText1 (pages : List String) : String :=
  extractedText1From 0 pages

/-- `src/scripts/pdf_parser.py` line 48: the block appended to
`text_content` for page index `i` — emitted for every page, empty or not. -/
def pageBlock2 (i : Nat) (text : String) : String :=
  "--- Page " ++ toString (i + 1) ++ " ---\n" ++ text ++ "\n"

/-- The `text_content` list of `src/scripts/pdf_parser.py` (lines 39-51),
starting from page index `i`. -/
def textContent2From (i : Nat) : List String → List String
  | [] => []
  | t :: rest => pageBlock2 i t :: textContent2From (i + 1) rest

/-- Python `"\n".join(...)` as used on line 58 of
`src/scripts/pdf_parser.py`. -/
def joinNewline : List String → String
  | [] => ""
  | [s] => s
  | s :: rest => s ++ "\n" ++ joinNewline rest

/-- The `full_text` of `src/scripts/pdf_parser.py` for a document whose
pages carry the given texts. -/
def fullText2 (pages : List String) : String :=
  joinNewline (textContent2From 0 pages)

/-- Outcome of a fallible runtime step: the value produced, or the message
of the exception raised. -/
abbrev Outcome (α : Type) := Except String α

/-- The page loop of `extract_text_from_pdf` (`src/pdf-parser.py`
lines 39-51) starting at page index `i`, over the remaining pages' text
extraction outcomes.  Per iteration: `pdf.get_page` acquires the page,
`get_textpage().get_text_range()` either yields the text or raises, and
`page.close()` runs only after a successful extraction — an exception
jumps straight to the `except` handler, so neither the current page nor
any later cleanup runs.  Returns the events of the loop and either the
accumulated `extracted_text` continuation or the raised message. -/
def extractLoop1 (i : Nat) : List (Outcome String) → List Event × Outcome String
  | [] => ([], .ok "")
  | .error e :: _ => ([.openPage i], .error e)
  | .ok t :: rest =>
      let (evs, r) := extractLoop1 (i + 1) rest
      (.openPage i :: .extractPage i :: .closePage i :: evs,
       r.map (fun s => pageBlock1 i t ++ s))

/-- `extract_text_from_pdf` of `src/pdf-parser.py` (lines 25-71).  The
document argument is either the opened document — its pages' extraction
outcomes and its metadata dict — or the message of the exception raised
by `pdfium.PdfDocument(pdf_path)`.  On success the extracted text is
written to `output_path` and the success dict returned; any exception is
converted by the `except` handler into the failure dict.  (The output
write itself is modelled as succeeding; no claim turns on a failing
write.) -/
def runExtract1 (doc : Outcome (List (Outcome String) × List (String × String)))
    (output_path : String) : List Event × ExtractionResult :=
  match doc with
  | .error e => ([], .err e)
  | .ok (pages, info) =>
      let (evs, r) := extractLoop1 0 pages
      match r with
      | .error e => (.openDoc :: evs, .err e)
      | .ok text =>
          (.openDoc :: evs ++ [.closeDoc, .writeFile output_path text],
           .ok pages.length text.length output_path info)

/-- The page loop of `parse_pdf` (`src/scripts/pdf_parser.py` lines 43-51)
starting at page index `i`.  Every page contributes a block to
`text_content`; `text_page.close()` and `page.close()` run only after a
successful extraction. -/
def extractLoop2 (i : Nat) : List (Outcome String) → List Event × Outcome (List String)
  | [] => ([], .ok [])
  | .error e :: _ => ([.openPage i], .error e)
  | .ok t :: rest =>
      let (evs, r) := extractLoop2 (i + 1) rest
      (.openPage i :: .extractPage i :: .closePage i :: evs,
       r.map (fun l => pageBlock2 i t :: l))

/-- `parse_pdf` of `src/scripts/pdf_parser.py` (lines 13-74).  The output
directory is created first; then the document is opened (or raises), the
pages are walked, the blocks are joined with `"\n"` and written to
`<output_dir>/<pdf_name>.txt` where `pdf_name` is `Path(pdf_path).stem`.
On success the output file path is returned; the `except` handler turns
any exception into `sys.exit(1)`, modelled by the error outcome. -/
def runParse2 (doc : Outcome (List (Outcome String))) (output_dir pdf_name : String) :
    List Event × Outcome String :=
  match doc with
  | .error e => ([.makeDir output_dir], .error e)
  | .ok pages =>
      let (evs, r) := extractLoop2 0 pages
      match r with
      | .error e => (.makeDir output_dir :: .openDoc :: evs, .error e)
      | .ok content =>
          let outFile := output_dir ++ "/" ++ pdf_name ++ ".txt"
          (.makeDir output_dir :: .openDoc :: evs ++
             [.closeDoc, .writeFile outFile (joinNewline content)],
           .ok outFile)

/-- The pages of a document whose every text extraction succeeds. -/
def okPages (texts : List String) : List (Outcome String) :=
  texts.map Except.ok

/-- `extract_text_from_pdf` on a document that opens and whose every page
extracts successfully. -/
def runExtract1Ok (texts : List String) (info : List (String × String))
    (output_path : String) : List Event × ExtractionResult :=
  runExtract1 (.ok (okPages texts, info)) output_path

/-- `parse_pdf` on a document that opens and whose every page extracts
successfully. -/
def runParse2Ok (texts : List String) (output_dir pdf_name : String) :
    List Event × Outcome String :=
  runParse2 (.ok (okPages texts)) output_dir pdf_name

/-- Observable outcome of one CLI process run: the exit status, the JSON
result line printed (JSON-output variant only), the plain error message
printed (if any), and the extraction events that took place. -/
structure CliRun where
  exitCode : Nat
  jsonPrinted : Option ExtractionResult
  errorMessage : Option String
  events : List Event
deriving DecidableEq, Repr

/-- `main` of `src/pdf-parser.py` (lines 73-102).  `argcOk` is whether
exactly two arguments were supplied; `pathExists` whether
`os.path.exists(pdf_path)` holds; `doc` the outcome of opening the
document and extracting its pages.  Validation order follows the source:
argument count, then existence, then the case-insensitive `.pdf`
extension check; only then is `extract_text_from_pdf` called, its result
printed as one JSON line, and the exit code taken from
`result['success']`.  (The output-directory creation of lines 91-93 is
not modelled; no claim depends on it.) -/
def main1 (argcOk : Bool) (pathExists : Bool) (pdf_path : String)
    (doc : Outcome (List (Outcome String) × List (String × String)))
    (output_path : String) : CliRun :=
  if !argcOk then
    ⟨1, none, some "Usage: python pdf-parser.py <pdf_path> <output_path>", []⟩
  else if !pathExists then
    ⟨1, none, some ("Error: PDF file not found: " ++ pdf_path), []⟩
  else if !(pyEndsWith (pyLower pdf_path) ".pdf") then
    ⟨1, none, some "Error: Input file must be a PDF", []⟩
  else
    let (evs, r) := runExtract1 doc output_path
    ⟨if r.success then 0 else 1, some r, none, evs⟩

/-- `main` of `src/scripts/pdf_parser.py` (lines 76-108).  After argument
parsing, only `os.path.exists(args.pdf_path)` is checked — there is no
extension check — and then `parse_pdf` runs; a failure inside it prints
to stderr and exits 1, success exits 0.  `pdf_stem` stands for
`Path(pdf_path).stem`. -/
def main2 (pathExists : Bool) (pdf_path pdf_stem : String)
    (doc : Outcome (List (Outcome String))) (output_dir : String) : CliRun :=
  if !pathExists then
    ⟨1, none, some ("Error: PDF file '" ++ pdf_path ++ "' not found"), []⟩
  else
    match runParse2 doc output_dir pdf_stem with
    | (evs, .error e) => ⟨1, none, some ("Error parsing PDF: " ++ e), evs⟩
    | (evs, .ok _) => ⟨0, none, none, evs⟩

/-- A flat file system: path to content. -/
def FileSystem : Type := String → Option String

/-- The effect of one event on the file system: `writeFile` opens the path
with mode `'w'`, truncating whatever was there, and stores exactly the
given content; no other event touches files. -/
def applyEvent (fs : FileSystem) : Event → FileSystem
  | .writeFile p c => fun q => if q = p then some c else fs q
  | _ => fs

/-- The effect of a trace of events on the file system. -/
def applyEvents (fs : FileSystem) (evs : List Event) : FileSystem :=
  evs.foldl applyEvent fs

/-- The event trace of `n` consecutive successful page iterations starting
at page index `i`: each iteration opens its page, extracts its text and
closes the page before the next begins. -/
def loopEvents : Nat → Nat → List Event
  | _, 0 => []
  | i, n + 1 => .openPage i :: .extractPage i :: .closePage i :: loopEvents (i + 1) n

/-- Concatenation of a list of strings, in order. -/
def concatAll : List String → String
  | [] => ""
  | s :: rest => s ++ concatAll rest

/-- The page indices whose text extraction completed, in trace order. -/
def extractsOf (tr : List Event) : List Nat :=
  tr.filterMap (fun e => match e with | .extractPage j => some j | _ => none)

/-- The page numbers `N` of the `=== Page N ===` markers of
`src/pdf-parser.py`, in the order their blocks appear in
`extracted_text`: one marker per page whose stripped text is non-empty. -/
def markerNums1 (texts : List String) : List Nat :=
  ((texts.enum.filter (fun p => stripNonEmpty p.2)).map (fun p => p.1 + 1))

/-- The page numbers `N` of the `--- Page N ---` markers of
`src/scripts/pdf_parser.py`, in the order their blocks appear in
`full_text`: one marker per page, empty or not. -/
def markerNums2 (texts : List String) : List Nat :=
  texts.enum.map (fun p => p.1 + 1)

theorem data_append (s u : String) : (s ++ u).data = s.data ++ u.data := rfl

theorem empty_append_str (s : String) : "" ++ s = s := rfl

theorem extractLoop1_map_ok : ∀ (texts : List String) (i : Nat),
    extractLoop1 i (texts.map Except.ok) =
      (loopEvents i texts.length, .ok (extractedText1From i texts))
  | [], _ => rfl
  | t :: rest, i => by
      simp [extractLoop1, extractLoop1_map_ok rest (i + 1), loopEvents,
        extractedText1From, Except.map]

theorem extractLoop2_map_ok : ∀ (texts : List String) (i : Nat),
    extractLoop2 i (texts.map Except.ok) =
      (loopEvents i texts.length, .ok (textContent2From i texts))
  | [], _ => rfl
  | t :: rest, i => by
      simp [extractLoop2, extractLoop2_map_ok rest (i + 1), loopEvents,
        textContent2From, Except.map]

theorem extractLoop1_fail : ∀ (pre : List String) (i : Nat) (e : String)
    (rest : List (Outcome String)),
    extractLoop1 i (pre.map Except.ok ++ .error e :: rest) =
      (loopEvents i pre.length ++ [.openPage (i + pre.length)], .error e)
  | [], i, e, rest => by simp [extractLoop1, loopEvents]
  | t :: pre, i, e, rest => by
      simp [extractLoop1, extractLoop1_fail pre (i + 1) e rest, loopEvents,
        Except.map, Nat.add_assoc, Nat.add_comm 1 pre.length]

theorem extractLoop2_fail : ∀ (pre : List String) (i : Nat) (e : String)
    (rest : List (Outcome String)),
    extractLoop2 i (pre.map Except.ok ++ .error e :: rest) =
      (loopEvents i pre.length ++ [.openPage (i + pre.length)], .error e)
  | [], i, e, rest => by simp [extractLoop2, loopEvents]
  | t :: pre, i, e, rest => by
      simp [extractLoop2, extractLoop2_fail pre (i + 1) e rest, loopEvents,
        Except.map, Nat.add_assoc, Nat.add_comm 1 pre.length]

theorem mem_loopEvents : ∀ (n i : Nat) (e : Event), e ∈ loopEvents i n ↔
    ∃ j, i ≤ j ∧ j < i + n ∧ (e = .openPage j ∨ e = .extractPage j ∨ e = .closePage j)
  | 0, i, e => by
      simp only [loopEvents, List.not_mem_nil, false_iff]
      rintro ⟨j, h1, h2, -⟩
      omega
  | n + 1, i, e => by
      simp only [loopEvents, List.mem_cons, mem_loopEvents n (i + 1) e]
      constructor
      · rintro (rfl | rfl | rfl | ⟨j, h1, h2, hj⟩)
        · exact ⟨i, le_rfl, by omega, Or.inl rfl⟩
        · exact ⟨i, le_rfl, by omega, Or.inr (Or.inl rfl)⟩
        · exact ⟨i, le_rfl, by omega, Or.inr (Or.inr rfl)⟩
        · exact ⟨j, by omega, by omega, hj⟩
      · rintro ⟨j, h1, h2, (rfl | rfl | rfl)⟩
        · rcases Nat.eq_or_lt_of_le h1 with rfl | hlt
          · exact Or.inl rfl
          · exact Or.inr (Or.inr (Or.inr ⟨j, by omega, by omega, Or.inl rfl⟩))
        · rcases Nat.eq_or_lt_of_le h1 with rfl | hlt
          · exact Or.inr (Or.inl rfl)
          · exact Or.inr (Or.inr (Or.inr ⟨j, by omega, by omega, Or.inr (Or.inl rfl)⟩))
        · rcases Nat.eq_or_lt_of_le h1 with rfl | hlt
          · exact Or.inr (Or.inr (Or.inl rfl))
          · exact Or.inr (Or.inr (Or.inr ⟨j, by omega, by omega, Or.inr (Or.inr rfl)⟩))

theorem openPage_mem_loopEvents (n i j : Nat) :
    Event.openPage j ∈ loopEvents i n ↔ i ≤ j ∧ j < i + n := by
  rw [mem_loopEvents]
  constructor
  · rintro ⟨k, h1, h2, (h | h | h)⟩
    · cases h; exact ⟨h1, h2⟩
    · cases h
    · cases h
  · rintro ⟨h1, h2⟩; exact ⟨j, h1, h2, Or.inl rfl⟩

theorem closePage_mem_loopEvents (n i j : Nat) :
    Event.closePage j ∈ loopEvents i n ↔ i ≤ j ∧ j < i + n := by
  rw [mem_loopEvents]
  constructor
  · rintro ⟨k, h1, h2, (h | h | h)⟩
    · cases h
    · cases h
    · cases h; exact ⟨h1, h2⟩
  · rintro ⟨h1, h2⟩; exact ⟨j, h1, h2, Or.inr (Or.inr rfl)⟩

theorem closeDoc_not_mem_loopEvents (n i : Nat) : Event.closeDoc ∉ loopEvents i n := by
  rw [mem_loopEvents]
  rintro ⟨j, -, -, (h | h | h)⟩ <;> cases h

theorem extractsOf_loopEvents : ∀ (n i : Nat),
    extractsOf (loopEvents i n) = List.range' i n
  | 0, _ => rfl
  | n + 1, i => by
      have ih := extractsOf_loopEvents n (i + 1)
      simp only [extractsOf, loopEvents, List.filterMap_cons] at ih ⊢
      rw [show List.range' i (n + 1) = i :: List.range' (i + 1) n from rfl]
      exact congrArg (i :: ·) ih

theorem extractedText1From_eq_blocks : ∀ (texts : List String) (i : Nat),
    extractedText1From i texts =
      concatAll (((List.enumFrom i texts).filter (fun p => stripNonEmpty p.2)).map
        (fun p => pageBlock1 p.1 p.2))
  | [], _ => rfl
  | t :: rest, i => by
      rw [show List.enumFrom i (t :: rest) = (i, t) :: List.enumFrom (i + 1) rest from rfl]
      by_cases h : stripNonEmpty t = true
      · simp only [List.filter_cons, h, List.map_cons, concatAll, extractedText1From,
          extractedText1From_eq_blocks rest (i + 1)]
      · have hb : pageBlock1 i t = "" := by simp [pageBlock1, h]
        simp only [List.filter_cons, extractedText1From, hb, empty_append_str,
          extractedText1From_eq_blocks rest (i + 1)]
        simp [Bool.eq_false_iff.mpr h]

theorem textContent2From_eq_blocks : ∀ (texts : List String) (i : Nat),
    textContent2From i texts =
      (List.enumFrom i texts).map (fun p => pageBlock2 p.1 p.2)
  | [], _ => rfl
  | t :: rest, i => by
      rw [show List.enumFrom i (t :: rest) = (i, t) :: List.enumFrom (i + 1) rest from rfl]
      simp only [List.map_cons, textContent2From, textContent2From_eq_blocks rest (i + 1)]

theorem le_fst_of_mem_enumFrom {α : Type} : ∀ (l : List α) (i : Nat) (p : Nat × α),
    p ∈ List.enumFrom i l → i ≤ p.1
  | [], _, _, h => absurd h (List.not_mem_nil _)
  | _ :: rest, i, p, h => by
      rw [show List.enumFrom i (_ :: rest) = (i, _) :: List.enumFrom (i + 1) rest from rfl,
        List.mem_cons] at h
      rcases h with rfl | h
      · exact le_rfl
      · exact Nat.le_of_succ_le (le_fst_of_mem_enumFrom rest (i + 1) p h)

theorem pairwise_fst_enumFrom {α : Type} : ∀ (l : List α) (i : Nat),
    List.Pairwise (fun p q => p.1 < q.1) (List.enumFrom i l)
  | [], _ => List.Pairwise.nil
  | t :: rest, i => by
      rw [show List.enumFrom i (t :: rest) = (i, t) :: List.enumFrom (i + 1) rest from rfl]
      exact List.Pairwise.cons
        (fun q hq => Nat.lt_of_succ_le (le_fst_of_mem_enumFrom rest (i + 1) q hq))
        (pairwise_fst_enumFrom rest (i + 1))

theorem pairwise_markerNums1 (texts : List String) :
    List.Pairwise (· < ·) (markerNums1 texts) := by
  refine List.Pairwise.map _ (fun p q h => ?_) ((pairwise_fst_enumFrom texts 0).filter _)
  exact Nat.succ_lt_succ h

theorem pairwise_markerNums2 (texts : List String) :
    List.Pairwise (· < ·) (markerNums2 texts) := by
  refine List.Pairwise.map _ (fun p q h => ?_) (pairwise_fst_enumFrom texts 0)
  exact Nat.succ_lt_succ h

theorem extractedText1From_all_empty : ∀ (texts : List String) (i : Nat),
    (∀ t ∈ texts, stripNonEmpty t = false) → extractedText1From i texts = ""
  | [], _, _ => rfl
  | t :: rest, i, h => by
      have hb : pageBlock1 i t = "" := by
        simp [pageBlock1, h t (List.mem_cons_self t rest)]
      simp only [extractedText1From, hb, empty_append_str]
      exact extractedText1From_all_empty rest (i + 1) (fun u hu => h u (List.mem_cons_of_mem t hu))

theorem applyEvents_loopEvents : ∀ (n i : Nat) (fs : FileSystem),
    applyEvents fs (loopEvents i n) = fs
  | 0, _, _ => rfl
  | n + 1, i, fs => applyEvents_loopEvents n (i + 1) fs

theorem applyEvents_run1 (fs : FileSystem) (texts : List String)
    (info : List (String × String)) (out : String) :
    applyEvents fs (runExtract1Ok texts info out).1 =
      fun q => if q = out then some (extractedText1 texts) else fs q := by
  show applyEvents fs (runExtract1 (.ok (okPages texts, info)) out).1 = _
  rw [show (runExtract1 (.ok (okPages texts, info)) out).1 =
      Event.openDoc :: loopEvents 0 texts.length ++
        [Event.closeDoc, Event.writeFile out (extractedText1 texts)] by
    simp [runExtract1, okPages, extractLoop1_map_ok texts 0, extractedText1]]
  show applyEvents (applyEvent fs .openDoc) (loopEvents 0 texts.length ++ _) = _
  rw [show applyEvent fs Event.openDoc = fs from rfl, applyEvents, List.foldl_append]
  rw [show List.foldl applyEvent fs (loopEvents 0 texts.length) =
      applyEvents fs (loopEvents 0 texts.length) from rfl,
    applyEvents_loopEvents texts.length 0 fs]
  rfl

theorem applyEvents_run2 (fs : FileSystem) (texts : List String)
    (output_dir pdf_name : String) :
    applyEvents fs (runParse2Ok texts output_dir pdf_name).1 =
      fun q => if q = output_dir ++ "/" ++ pdf_name ++ ".txt"
        then some (fullText2 texts) else fs q := by
  show applyEvents fs (runParse2 (.ok (okPages texts)) output_dir pdf_name).1 = _
  rw [show (runParse2 (.ok (okPages texts)) output_dir pdf_name).1 =
      Event.makeDir output_dir :: Event.openDoc :: loopEvents 0 texts.length ++
        [Event.closeDoc,
         Event.writeFile (output_dir ++ "/" ++ pdf_name ++ ".txt") (fullText2 texts)] by
    simp [runParse2, okPages, extractLoop2_map_ok texts 0, fullText2]]
  show applyEvents (applyEvent (applyEvent fs (.makeDir output_dir)) .openDoc)
    (loopEvents 0 texts.length ++ _) = _
  rw [show applyEvent (applyEvent fs (Event.makeDir output_dir)) Event.openDoc = fs from rfl,
    applyEvents, List.foldl_append]
  rw [show List.foldl applyEvent fs (loopEvents 0 texts.length) =
      applyEvents fs (loopEvents 0 texts.length) from rfl,
    applyEvents_loopEvents texts.length 0 fs]
  rfl

theorem cons_of_head? {α : Type} {l : List α} {a : α} (h : l.head? = some a) :
    ∃ t, l = a :: t := by
  cases l with
  | nil => cases h
  | cons b t =>
      obtain rfl : b = a := Option.some.inj h
      exact ⟨t, rfl⟩

theorem pageBlock1_data_cons (i : Nat) (t : String) (h : stripNonEmpty t = true) :
    ∃ l, (pageBlock1 i t).data = '\n' :: l := by
  refine cons_of_head? ?_
  simp only [pageBlock1, h, if_true, data_append,
    show "\n=== Page ".data = '\n' :: "=== Page ".data from rfl, List.cons_append]
  rfl

theorem pageBlock2_data_cons (i : Nat) (t : String) :
    ∃ l, (pageBlock2 i t).data = '-' :: l := by
  refine cons_of_head? ?_
  simp only [pageBlock2, data_append,
    show "--- Page ".data = '-' :: "-- Page ".data from rfl, List.cons_append]
  rfl

theorem extractedText1From_head : ∀ (texts : List String) (i : Nat),
    (extractedText1From i texts).data.head? = none ∨
      (extractedText1From i texts).data.head? = some '\n'
  | [], _ => Or.inl rfl
  | t :: rest, i => by
      by_cases h : stripNonEmpty t = true
      · obtain ⟨l, hl⟩ := pageBlock1_data_cons i t h
        rw [extractedText1From, data_append, hl, List.cons_append]
        exact Or.inr rfl
      · have hb : pageBlock1 i t = "" := by simp [pageBlock1, h]
        rw [extractedText1From, hb, empty_append_str]
        exact extractedText1From_head rest (i + 1)

theorem fullText2_cons_head (t : String) (rest : List String) :
    (fullText2 (t :: rest)).data.head? = some '-' := by
  obtain ⟨l, hl⟩ := pageBlock2_data_cons 0 t
  show (joinNewline (pageBlock2 0 t :: textContent2From 1 rest)).data.head? = some '-'
  cases htc : textContent2From 1 rest with
  | nil =>
      rw [show joinNewline [pageBlock2 0 t] = pageBlock2 0 t from rfl, hl]
      rfl
  | cons c cs =>
      rw [show joinNewline (pageBlock2 0 t :: c :: cs) =
          pageBlock2 0 t ++ "\n" ++ joinNewline (c :: cs) from rfl,
        data_append, data_append, hl, List.cons_append, List.cons_append]
      rfl

theorem runExtract1Ok_eq (texts : List String) (info : List (String × String))
    (out : String) :
    runExtract1Ok texts info out =
      (Event.openDoc :: loopEvents 0 texts.length ++
         [Event.closeDoc, Event.writeFile out (extractedText1 texts)],
       .ok texts.length (extractedText1 texts).length out info) := by
  simp [runExtract1Ok, runExtract1, okPages, extractLoop1_map_ok texts 0, extractedText1]

theorem runParse2Ok_eq (texts : List String) (output_dir pdf_name : String) :
    runParse2Ok texts output_dir pdf_name =
      (Event.makeDir output_dir :: Event.openDoc :: loopEvents 0 texts.length ++
         [Event.closeDoc,
          Event.writeFile (output_dir ++ "/" ++ pdf_name ++ ".txt") (fullText2 texts)],
       .ok (output_dir ++ "/" ++ pdf_name ++ ".txt")) := by
  simp [runParse2Ok, runParse2, okPages, extractLoop2_map_ok texts 0, fullText2]

theorem runExtract1_fail_eq (pre : List String) (e : String)
    (rest : List (Outcome String)) (info : List (String × String)) (out : String) :
    runExtract1 (.ok (pre.map Except.ok ++ .error e :: rest, info)) out =
      (Event.openDoc :: (loopEvents 0 pre.length ++ [Event.openPage pre.length]),
       .err e) := by
  simp [runExtract1, extractLoop1_fail pre 0 e rest]

theorem runParse2_fail_eq (pre : List String) (e : String)
    (rest : List (Outcome String)) (output_dir pdf_name : String) :
    runParse2 (.ok (pre.map Except.ok ++ .error e :: rest)) output_dir pdf_name =
      (Event.makeDir output_dir :: Event.openDoc ::
         (loopEvents 0 pre.length ++ [Event.openPage pre.length]),
       .error e) := by
  simp [runParse2, extractLoop2_fail pre 0 e rest]

end PdfExtract

namespace PdfExtract

example : extractedText1 ["hello"] = "\n=== Page 1 ===\n\nhello\n" := by decide

example : extractedText1 ["hello", " ", "world"] =
    "\n=== Page 1 ===\n\nhello\n\n=== Page 3 ===\n\nworld\n" := by decide

example : fullText2 ["hello"] = "--- Page 1 ---\nhello\n" := by decide

example : fullText2 ["a", "b"] = "--- Page 1 ---\na\n\n--- Page 2 ---\nb\n" := by decide

/-- Claim C1, counterexample to the claim as stated: in the plain-message
variant (`src/scripts/pdf_parser.py`), a one-page PDF whose only page's
text is the single space `" "` — empty after stripping — still contributes
a `--- Page 1 ---` marker and content to the output, so it is not true
that for either CLI variant empty pages contribute no marker and no
content. -/
theorem c1_counterexample :
    stripNonEmpty " " = false ∧
    fullText2 [" "] = "--- Page 1 ---\n \n" ∧
    fullText2 [" "] ≠ "" := by
  refine ⟨by decide, by decide, by decide⟩

/-- Claim C1 (amended): in the JSON-output variant
(`src/pdf-parser.py`), the output text is the concatenation, in page
order, of exactly one marker block per page whose stripped text is
non-empty — pages with empty stripped text contribute no marker and no
content; in the plain-message variant (`src/scripts/pdf_parser.py`), the
output is the newline-join of one marker block per page, whether the
page's text is empty or not. -/
theorem c1_page_blocks (texts : List String) :
    extractedText1 texts =
      concatAll (((texts.enum.filter (fun p => stripNonEmpty p.2)).map
        (fun p => pageBlock1 p.1 p.2))) ∧
    fullText2 texts = joinNewline (texts.enum.map (fun p => pageBlock2 p.1 p.2)) :=
  ⟨extractedText1From_eq_blocks texts 0,
   congrArg joinNewline (textContent2From_eq_blocks texts 0)⟩

/-- Claim C2, counterexample to the claim as stated: on a one-page PDF
with page text `"hello"` the two CLI variants write different output file
content, so they are not behaviorally identical up to logging
verbosity. -/
theorem c2_counterexample :
    extractedText1 ["hello"] = "\n=== Page 1 ===\n\nhello\n" ∧
    fullText2 ["hello"] = "--- Page 1 ---\nhello\n" ∧
    extractedText1 ["hello"] ≠ fullText2 ["hello"] := by
  refine ⟨by decide, by decide, by decide⟩

/-- Claim C2 (amended): the two CLI variants are not behaviorally
identical: they differ in page filtering (the JSON-output variant drops
pages whose stripped text is empty, the plain-message variant keeps every
page) and in marker text (`=== Page N ===` versus `--- Page N ---`).
Their output file contents coincide exactly for documents with zero
pages. -/
theorem c2_outputs_equal_iff_no_pages (texts : List String) :
    extractedText1 texts = fullText2 texts ↔ texts = [] := by
  constructor
  · intro h
    cases texts with
    | nil => rfl
    | cons t rest =>
        exfalso
        have hh := congrArg (fun s => s.data.head?) h
        simp only at hh
        rw [fullText2_cons_head t rest] at hh
        rcases extractedText1From_head (t :: rest) 0 with h1 | h1
        · rw [show extractedText1 (t :: rest) = extractedText1From 0 (t :: rest) from rfl,
            h1] at hh
          cases hh
        · rw [show extractedText1 (t :: rest) = extractedText1From 0 (t :: rest) from rfl,
            h1] at hh
          have := Option.some.inj hh
          cases this
  · rintro rfl
    rfl

/-- Claim C6: in both CLI variants, on a run where every page extraction
succeeds, pages are extracted in strictly increasing zero-based index
order `0..pageCount-1` (the trace of completed page extractions is
exactly `[0, 1, …, n-1]`), and the page-boundary markers appear in the
output in strictly increasing page-number order: the output decomposes
into page blocks in page order, and the marker numbers of those blocks
are strictly increasing. -/
theorem c6_page_order (texts : List String) (info : List (String × String))
    (out output_dir pdf_name : String) :
    extractsOf (runExtract1Ok texts info out).1 = List.range texts.length ∧
    extractsOf (runParse2Ok texts output_dir pdf_name).1 = List.range texts.length ∧
    List.Pairwise (· < ·) (markerNums1 texts) ∧
    List.Pairwise (· < ·) (markerNums2 texts) ∧
    extractedText1 texts =
      concatAll (((texts.enum.filter (fun p => stripNonEmpty p.2)).map
        (fun p => pageBlock1 p.1 p.2))) ∧
    fullText2 texts = joinNewline (texts.enum.map (fun p => pageBlock2 p.1 p.2)) := by
  refine ⟨?_, ?_, pairwise_markerNums1 texts, pairwise_markerNums2 texts,
    extractedText1From_eq_blocks texts 0,
    congrArg joinNewline (textContent2From_eq_blocks texts 0)⟩
  · rw [runExtract1Ok_eq]
    simp only [extractsOf, List.filterMap_cons, List.filterMap_append, List.filterMap_nil,
      List.append_nil]
    rw [List.range_eq_range']
    exact extractsOf_loopEvents texts.length 0
  · rw [runParse2Ok_eq]
    simp only [extractsOf, List.filterMap_cons, List.filterMap_append, List.filterMap_nil,
      List.append_nil]
    rw [List.range_eq_range']
    exact extractsOf_loopEvents texts.length 0

theorem openDoc_mem_runParse2_ok (pages : List (Outcome String))
    (output_dir pdf_name : String) :
    Event.openDoc ∈ (runParse2 (.ok pages) output_dir pdf_name).1 := by
  cases h : extractLoop2 0 pages with
  | mk evs r =>
      cases r with
      | error e => simp [runParse2, h]
      | ok content => simp [runParse2, h]

/-- Claim C3, counterexample to the claim as stated: the plain-message
variant performs no extension check at all — invoked on an existing
non-`.pdf` path it opens the document and, when the library manages to
parse the file, even exits with status 0 rather than rejecting with
status 1. -/
theorem c3_counterexample :
    pyEndsWith (pyLower "notes.txt") ".pdf" = false ∧
    Event.openDoc ∈ (main2 true "notes.txt" "notes" (.ok []) "out").events ∧
    (main2 true "notes.txt" "notes" (.ok []) "out").exitCode = 0 := by
  refine ⟨by decide, by decide, by decide⟩

/-- Claim C3 (amended): only the JSON-output variant rejects input paths
that do not end in `.pdf` (case-insensitive) before any document is
opened, exiting with status 1 (when the path also fails an earlier check
— wrong argument count or missing file — it is likewise rejected with
status 1 before any document is opened); the plain-message variant has no
extension check and proceeds to open the document for any existing
path. -/
theorem c3_extension_check (argcOk pathExists : Bool) (pdf_path : String)
    (doc : Outcome (List (Outcome String) × List (String × String)))
    (output_path pdf_stem output_dir : String) (pages : List (Outcome String))
    (h : pyEndsWith (pyLower pdf_path) ".pdf" = false) :
    (main1 argcOk pathExists pdf_path doc output_path).exitCode = 1 ∧
    (main1 argcOk pathExists pdf_path doc output_path).events = [] ∧
    Event.openDoc ∉ (main1 argcOk pathExists pdf_path doc output_path).events ∧
    Event.openDoc ∈ (main2 true pdf_path pdf_stem (.ok pages) output_dir).events := by
  have hm : (main1 argcOk pathExists pdf_path doc output_path).exitCode = 1 ∧
      (main1 argcOk pathExists pdf_path doc output_path).events = [] := by
    cases argcOk with
    | false => exact ⟨rfl, rfl⟩
    | true =>
        cases pathExists with
        | false => exact ⟨rfl, rfl⟩
        | true => simp [main1, h]
  have h2 : (main2 true pdf_path pdf_stem (.ok pages) output_dir).events =
      (runParse2 (.ok pages) output_dir pdf_stem).1 := by
    cases hr : runParse2 (.ok pages) output_dir pdf_stem with
    | mk evs r => cases r with
      | error e => simp [main2, hr]
      | ok c => simp [main2, hr]
  refine ⟨hm.1, hm.2, ?_, ?_⟩
  · rw [hm.2]; simp
  · rw [h2]; exact openDoc_mem_runParse2_ok pages output_dir pdf_stem

theorem c3_witness :
    (main1 true true "a.txt" (.ok ([], [])) "o").exitCode = 1 ∧
    (main1 true true "a.txt" (.ok ([], [])) "o").events = [] ∧
    Event.openDoc ∉ (main1 true true "a.txt" (.ok ([], [])) "o").events ∧
    Event.openDoc ∈ (main2 true "a.txt" "a" (.ok []) "d").events :=
  c3_extension_check true true "a.txt" (.ok ([], [])) "o" "a" "d" [] (by decide)

/-- Claim C4, counterexample to the claim as stated: on a one-page
document whose page text extraction raises, the JSON-output variant's
trace acquires the document and page 0 but never releases either — the
exception jumps from the extraction call to the `except` handler,
skipping both `page.close()` and `pdf.close()`. -/
theorem c4_counterexample :
    (runExtract1 (.ok ([.error "boom"], [])) "out.txt").1 =
      [Event.openDoc, Event.openPage 0] ∧
    Event.closePage 0 ∉ (runExtract1 (.ok ([.error "boom"], [])) "out.txt").1 ∧
    Event.closeDoc ∉ (runExtract1 (.ok ([.error "boom"], [])) "out.txt").1 := by
  refine ⟨by decide, by decide, by decide⟩

/-- Claim C4 (amended): in both variants, on a run where every page
extraction succeeds, each acquired page handle is released in its own
loop iteration and the document handle is released at the end of the
call; but when the extraction of some page raises mid-loop, the pages
before it have been released while the raising page's handle and the
document handle are never released. -/
theorem c4_resource_release (texts pre : List String) (info : List (String × String))
    (out output_dir pdf_name : String) (j : Nat) (e : String)
    (rest : List (Outcome String)) :
    Event.closeDoc ∈ (runExtract1Ok texts info out).1 ∧
    (Event.openPage j ∈ (runExtract1Ok texts info out).1 ↔
      Event.closePage j ∈ (runExtract1Ok texts info out).1) ∧
    Event.closeDoc ∈ (runParse2Ok texts output_dir pdf_name).1 ∧
    (Event.openPage j ∈ (runParse2Ok texts output_dir pdf_name).1 ↔
      Event.closePage j ∈ (runParse2Ok texts output_dir pdf_name).1) ∧
    Event.openDoc ∈
      (runExtract1 (.ok (pre.map Except.ok ++ .error e :: rest, info)) out).1 ∧
    Event.closeDoc ∉
      (runExtract1 (.ok (pre.map Except.ok ++ .error e :: rest, info)) out).1 ∧
    (∀ k, k < pre.length → Event.closePage k ∈
      (runExtract1 (.ok (pre.map Except.ok ++ .error e :: rest, info)) out).1) ∧
    Event.openPage pre.length ∈
      (runExtract1 (.ok (pre.map Except.ok ++ .error e :: rest, info)) out).1 ∧
    Event.closePage pre.length ∉
      (runExtract1 (.ok (pre.map Except.ok ++ .error e :: rest, info)) out).1 ∧
    Event.openDoc ∈
      (runParse2 (.ok (pre.map Except.ok ++ .error e :: rest)) output_dir pdf_name).1 ∧
    Event.closeDoc ∉
      (runParse2 (.ok (pre.map Except.ok ++ .error e :: rest)) output_dir pdf_name).1 ∧
    Event.openPage pre.length ∈
      (runParse2 (.ok (pre.map Except.ok ++ .error e :: rest)) output_dir pdf_name).1 ∧
    Event.closePage pre.length ∉
      (runParse2 (.ok (pre.map Except.ok ++ .error e :: rest)) output_dir pdf_name).1 := by
  rw [runExtract1Ok_eq, runParse2Ok_eq, runExtract1_fail_eq, runParse2_fail_eq]
  refine ⟨by simp, ?_, by simp, ?_, by simp, ?_, ?_, by simp, ?_, by simp, ?_, by simp, ?_⟩
  · simp [openPage_mem_loopEvents, closePage_mem_loopEvents]
  · simp [openPage_mem_loopEvents, closePage_mem_loopEvents]
  · simp [closeDoc_not_mem_loopEvents]
  · intro k hk
    simp [closePage_mem_loopEvents]
    omega
  · simp [closePage_mem_loopEvents]
  · simp [closeDoc_not_mem_loopEvents]
  · simp [closePage_mem_loopEvents]

/-- Claim C5, counterexample to the claim as stated: when the input file
is missing, the JSON-output variant prints a plain human-readable error
line, not a machine-readable JSON result, before exiting with status
1. -/
theorem c5_counterexample :
    (main1 true false "a.pdf" (.ok ([], [])) "out.txt").jsonPrinted = none ∧
    (main1 true false "a.pdf" (.ok ([], [])) "out.txt").errorMessage =
      some "Error: PDF file not found: a.pdf" ∧
    (main1 true false "a.pdf" (.ok ([], [])) "out.txt").exitCode = 1 := by
  refine ⟨by decide, by decide, by decide⟩

/-- Claim C5 (amended): in the JSON-output invocation shape, a missing
input file or a non-`.pdf` extension is reported by a plain error message
— no JSON is printed — with exit status 1; an extraction error (document
fails to open, or a page extraction raises mid-loop) is reported by one
machine-readable JSON line carrying the failure result, with exit status
1; and on success one JSON line carrying the success result is printed,
with exit status 0. -/
theorem c5_json_surface (p q out e : String) (info : List (String × String))
    (texts pre : List String)
    (hp : pyEndsWith (pyLower p) ".pdf" = true)
    (hq : pyEndsWith (pyLower q) ".pdf" = false) :
    (main1 true false p (.ok (okPages texts, info)) out).jsonPrinted = none ∧
    (main1 true false p (.ok (okPages texts, info)) out).errorMessage =
      some ("Error: PDF file not found: " ++ p) ∧
    (main1 true false p (.ok (okPages texts, info)) out).exitCode = 1 ∧
    (main1 true true q (.ok (okPages texts, info)) out).jsonPrinted = none ∧
    (main1 true true q (.ok (okPages texts, info)) out).errorMessage =
      some "Error: Input file must be a PDF" ∧
    (main1 true true q (.ok (okPages texts, info)) out).exitCode = 1 ∧
    (main1 true true p (.error e) out).jsonPrinted = some (.err e) ∧
    (main1 true true p (.error e) out).exitCode = 1 ∧
    (main1 true true p (.ok (pre.map Except.ok ++ [.error e], info)) out).jsonPrinted =
      some (.err e) ∧
    (main1 true true p (.ok (pre.map Except.ok ++ [.error e], info)) out).exitCode = 1 ∧
    (main1 true true p (.ok (okPages texts, info)) out).jsonPrinted =
      some (.ok texts.length (extractedText1 texts).length out info) ∧
    (main1 true true p (.ok (okPages texts, info)) out).exitCode = 0 := by
  have hrun : runExtract1 (.ok (okPages texts, info)) out =
      (Event.openDoc :: loopEvents 0 texts.length ++
         [Event.closeDoc, Event.writeFile out (extractedText1 texts)],
       .ok texts.length (extractedText1 texts).length out info) :=
    runExtract1Ok_eq texts info out
  have hfail : runExtract1 (.ok (pre.map Except.ok ++ [Except.error e], info)) out =
      (Event.openDoc :: (loopEvents 0 pre.length ++ [Event.openPage pre.length]),
       .err e) :=
    runExtract1_fail_eq pre e [] info out
  refine ⟨rfl, rfl, rfl,
    by simp [main1, hq], by simp [main1, hq], by simp [main1, hq],
    by simp [main1, hp, runExtract1, ExtractionResult.success],
    by simp [main1, hp, runExtract1, ExtractionResult.success],
    by simp [main1, hp, hfail, ExtractionResult.success],
    by simp [main1, hp, hfail, ExtractionResult.success],
    by simp [main1, hp, hrun, ExtractionResult.success],
    by simp [main1, hp, hrun, ExtractionResult.success]⟩

theorem c5_witness :
    (main1 true false "a.pdf" (.ok (okPages [], [])) "o").jsonPrinted = none ∧
    (main1 true false "a.pdf" (.ok (okPages [], [])) "o").errorMessage =
      some ("Error: PDF file not found: " ++ "a.pdf") ∧
    (main1 true false "a.pdf" (.ok (okPages [], [])) "o").exitCode = 1 ∧
    (main1 true true "a.txt" (.ok (okPages [], [])) "o").jsonPrinted = none ∧
    (main1 true true "a.txt" (.ok (okPages [], [])) "o").errorMessage =
      some "Error: Input file must be a PDF" ∧
    (main1 true true "a.txt" (.ok (okPages [], [])) "o").exitCode = 1 ∧
    (main1 true true "a.pdf" (.error "boom") "o").jsonPrinted = some (.err "boom") ∧
    (main1 true true "a.pdf" (.error "boom") "o").exitCode = 1 ∧
    (main1 true true "a.pdf" (.ok (List.map Except.ok [] ++ [.error "boom"], []))
        "o").jsonPrinted = some (.err "boom") ∧
    (main1 true true "a.pdf" (.ok (List.map Except.ok [] ++ [.error "boom"], []))
        "o").exitCode = 1 ∧
    (main1 true true "a.pdf" (.ok (okPages [], [])) "o").jsonPrinted =
      some (.ok 0 (extractedText1 []).length "o" []) ∧
    (main1 true true "a.pdf" (.ok (okPages [], [])) "o").exitCode = 0 :=
  c5_json_surface "a.pdf" "a.txt" "o" "boom" [] [] [] (by decide) (by decide)

/-- Claim C8: in both CLI variants, when the supplied input file does not
exist the process emits a failure message, exits with status 1, performs
no extraction events, and in particular leaves the file system unchanged
— no output file is created. -/
theorem c8_missing_input (p pdf_stem out output_dir : String)
    (doc1 : Outcome (List (Outcome String) × List (String × String)))
    (doc2 : Outcome (List (Outcome String))) (fs : FileSystem) :
    (main1 true false p doc1 out).exitCode = 1 ∧
    (main1 true false p doc1 out).errorMessage =
      some ("Error: PDF file not found: " ++ p) ∧
    (main1 true false p doc1 out).events = [] ∧
    applyEvents fs (main1 true false p doc1 out).events = fs ∧
    (main2 false p pdf_stem doc2 output_dir).exitCode = 1 ∧
    (main2 false p pdf_stem doc2 output_dir).errorMessage =
      some ("Error: PDF file '" ++ p ++ "' not found") ∧
    (main2 false p pdf_stem doc2 output_dir).events = [] ∧
    applyEvents fs (main2 false p pdf_stem doc2 output_dir).events = fs :=
  ⟨rfl, rfl, rfl, rfl, rfl, rfl, rfl, rfl⟩

/-- Claim C9: extraction is deterministic and idempotent — the output
content written for a given document is a pure function of its page
texts, the write truncates whatever was at the output path, and running
the extraction a second time on the same input and output path leaves
the file system exactly as after the first run, with the output file
holding byte-identical content, in both variants. -/
theorem c9_idempotent (fs : FileSystem) (texts : List String)
    (info : List (String × String)) (out output_dir pdf_name : String) :
    applyEvents (applyEvents fs (runExtract1Ok texts info out).1)
        (runExtract1Ok texts info out).1 =
      applyEvents fs (runExtract1Ok texts info out).1 ∧
    applyEvents fs (runExtract1Ok texts info out).1 out =
      some (extractedText1 texts) ∧
    applyEvents (applyEvents fs (runParse2Ok texts output_dir pdf_name).1)
        (runParse2Ok texts output_dir pdf_name).1 =
      applyEvents fs (runParse2Ok texts output_dir pdf_name).1 ∧
    applyEvents fs (runParse2Ok texts output_dir pdf_name).1
        (output_dir ++ "/" ++ pdf_name ++ ".txt") = some (fullText2 texts) := by
  refine ⟨?_, ?_, ?_, ?_⟩
  · rw [applyEvents_run1, applyEvents_run1]
    funext q
    by_cases h : q = out <;> simp [h]
  · rw [applyEvents_run1]; simp
  · rw [applyEvents_run2, applyEvents_run2]
    funext q
    by_cases h : q = output_dir ++ "/" ++ pdf_name ++ ".txt" <;> simp [h]
  · rw [applyEvents_run2]; simp

/-- Claim C10: in the JSON-output variant, a document with zero pages, or
whose every page's text is empty after stripping, still extracts
successfully: the empty string is written to the output file and the
result dict has `success` true with `text_length` 0. -/
theorem c10_empty_pages (texts : List String) (info : List (String × String))
    (out : String) (h : ∀ t ∈ texts, stripNonEmpty t = false) :
    (runExtract1Ok texts info out).2 = .ok texts.length 0 out info ∧
    (runExtract1Ok texts info out).2.success = true ∧
    Event.writeFile out "" ∈ (runExtract1Ok texts info out).1 := by
  have he : extractedText1 texts = "" := extractedText1From_all_empty texts 0 h
  rw [runExtract1Ok_eq, he]
  exact ⟨rfl, rfl, by simp⟩

theorem c10_witness :
    (runExtract1Ok [" ", ""] [("Title", "t")] "o.txt").2 =
      .ok 2 0 "o.txt" [("Title", "t")] ∧
    (runExtract1Ok [" ", ""] [("Title", "t")] "o.txt").2.success = true ∧
    Event.writeFile "o.txt" "" ∈ (runExtract1Ok [" ", ""] [("Title", "t")] "o.txt").1 :=
  c10_empty_pages [" ", ""] [("Title", "t")] "o.txt" (by decide)

/-- Claim C7: when the JSON-output variant extracts a document
successfully, the returned result dict has `success` true, `pages` equal
to the document's page count, `text_length` equal to the character length
of the exact text written to the output file (the write event carries
that very text), and `metadata` the document's metadata mapping,
verbatim. -/
theorem c7_success_result (texts : List String) (info : List (String × String))
    (out : String) :
    (runExtract1Ok texts info out).2 =
      .ok texts.length (extractedText1 texts).length out info ∧
    (runExtract1Ok texts info out).2.success = true ∧
    Event.writeFile out (extractedText1 texts) ∈ (runExtract1Ok texts info out).1 := by
  rw [runExtract1Ok_eq]
  refine ⟨rfl, rfl, ?_⟩
  simp

end PdfExtract
